import Mathlib

/-!
Shallow embedding of src/synapse/appservice/api.py (the homeserver → application
service HTTP client).  Each operation of the Python class becomes a pure
function: the outcome of the single HTTP call an operation makes is passed in as
an explicit HttpOutcome argument, and an operation whose result is the same for
every transport outcome demonstrably performs no network call.  Python
exceptions that escape an operation (assertion failures, ValueError, propagated
transport errors) become constructors of the PyResult type.
-/

/-- Untyped JSON values, the shape of everything the transport layer returns.
Python None is Json.null; Python dicts are association lists in insertion
order (a Python dict never holds a duplicate key). -/
inductive Json : Type where
  | null : Json
  | bool : Bool → Json
  | num : Int → Json
  | str : String → Json
  | arr : List Json → Json
  | obj : List (String × Json) → Json
deriving Repr

/-- Python dict lookup (d.get(k) / k in d) over an association list. -/
def jLookup : List (String × Json) → String → Option Json
  | [], _ => none
  | (k0, v) :: rest, key => if k0 = key then some v else jLookup rest key

/-- Python dict assignment d[k] = v: overwrite in place if the key exists,
otherwise append at the end (insertion order). -/
def jSet : List (String × Json) → String → Json → List (String × Json)
  | [], k, v => [(k, v)]
  | (k0, v0) :: rest, k, v =>
    if k0 = k then (k0, v) :: rest else (k0, v0) :: jSet rest k v

/-- Generic association-list lookup, for dicts whose values are not Json. -/
def alookup {κ β : Type} [DecidableEq κ] : List (κ × β) → κ → Option β
  | [], _ => none
  | (k0, v) :: rest, key => if k0 = key then some v else alookup rest key

/-- Generic association-list overwrite-or-append, mirroring dict assignment. -/
def aset {κ β : Type} [DecidableEq κ] : List (κ × β) → κ → β → List (κ × β)
  | [], k, v => [(k, v)]
  | (k0, v0) :: rest, k, v =>
    if k0 = k then (k0, v) :: rest else (k0, v0) :: aset rest k v

/-- d.setdefault(k, dflt) followed by an update of the entry: if the key is
present apply f to its value in place, otherwise append (k, f dflt). -/
def aupdate {κ β : Type} [DecidableEq κ] (l : List (κ × β)) (k : κ) (dflt : β)
    (f : β → β) : List (κ × β) :=
  match l with
  | [] => [(k, f dflt)]
  | (k0, v) :: rest =>
    if k0 = k then (k0, f v) :: rest else (k0, v) :: aupdate rest k dflt f

/-- The outcome of one HTTP call made through the SimpleHttpClient transport:
a parsed JSON response, a CodeMessageException carrying its HTTP status code,
or any other exception. -/
inductive HttpOutcome (α : Type) : Type where
  | ok : α → HttpOutcome α
  | codeError : Nat → HttpOutcome α
  | exn : HttpOutcome α
deriving Repr, DecidableEq

/-- Which Python assert statement fired.  The hs_token assertion appears in
every operation that reaches the network; ping additionally asserts that the
url is set. -/
inductive AssertKind : Type where
  | hsTokenNotNone : AssertKind
  | pingUrlSet : AssertKind
deriving Repr, DecidableEq

/-- Result of running one Python method: a normal return value, an
AssertionError, a ValueError, a propagated CodeMessageException (ping only),
or another propagated exception. -/
inductive PyResult (α : Type) : Type where
  | ok : α → PyResult α
  | assertFail : AssertKind → PyResult α
  | valueError : PyResult α
  | httpError : Nat → PyResult α
  | err : PyResult α
deriving Repr, DecidableEq

/-- The fields of synapse.appservice.ApplicationService that api.py reads;
url = none is a push-disabled service. -/
structure ApplicationService : Type where
  id : String
  url : Option String
  hs_token : Option String
  supports_ephemeral : Bool
  msc3202_transaction_extensions : Bool
deriving Repr, DecidableEq

/-- Source line 78: HOUR_IN_MS = 60 * 60 * 1000, the protocol-metadata cache
TTL. -/
def HOUR_IN_MS : Nat := 60 * 60 * 1000

/-- Modelled from the spec: synapse.api.constants.ThirdPartyEntityKind.USER
(the constants module is not under src/). -/
def ThirdPartyEntityKind.USER : String := "user"

/-- Modelled from the spec: synapse.api.constants.ThirdPartyEntityKind.LOCATION
(the constants module is not under src/). -/
def ThirdPartyEntityKind.LOCATION : String := "location"

/-- Source lines 84-89: _is_valid_3pe_metadata(info) — info has an
"instances" key whose value is a list.  A non-mapping value fails the check. -/
def _is_valid_3pe_metadata (info : Json) : Bool :=
  match info with
  | Json.obj kvs =>
    match jLookup kvs "instances" with
    | some (Json.arr _) => true
    | _ => false
  | _ => false

/-- Source lines 96-100, one iteration: k is present in the mapping and its
value is a string. -/
def jIsStrAt (kvs : List (String × Json)) (k : String) : Bool :=
  match jLookup kvs k with
  | some (Json.str _) => true
  | _ => false

/-- Source lines 102-106: "fields" is present in the mapping and its value is
a dict. -/
def jIsObjAt (kvs : List (String × Json)) (k : String) : Bool :=
  match jLookup kvs k with
  | some (Json.obj _) => true
  | _ => false

/-- Source lines 92-108: _is_valid_3pe_result(r, field) — r is a mapping in
which field and "protocol" are present with string values and "fields" is
present with a mapping value. -/
def _is_valid_3pe_result (r : Json) (field : String) : Bool :=
  match r with
  | Json.obj kvs =>
    jIsStrAt kvs field && jIsStrAt kvs "protocol" && jIsObjAt kvs "fields"
  | _ => false

/-- Source lines 124-146: query_user.  url = none short-circuits to False;
then the hs_token assertion; a non-null JSON response means the user exists;
HTTP 404, any other CodeMessageException and any other exception all fall
through to False. -/
def query_user (service : ApplicationService) (user_id : String)
    (resp : HttpOutcome Json) : PyResult Bool :=
  match service.url with
  | none => PyResult.ok false
  | some _ =>
    match service.hs_token with
    | none => PyResult.assertFail AssertKind.hsTokenNotNone
    | some _ =>
      match resp with
      | HttpOutcome.ok Json.null => PyResult.ok false
      | HttpOutcome.ok _ => PyResult.ok true
      | HttpOutcome.codeError _ => PyResult.ok false
      | HttpOutcome.exn => PyResult.ok false

/-- Source lines 148-170: query_alias, identical control flow to query_user
(only the logging of the status code differs). -/
def query_alias (service : ApplicationService) (room_alias : String)
    (resp : HttpOutcome Json) : PyResult Bool :=
  match service.url with
  | none => PyResult.ok false
  | some _ =>
    match service.hs_token with
    | none => PyResult.assertFail AssertKind.hsTokenNotNone
    | some _ =>
      match resp with
      | HttpOutcome.ok Json.null => PyResult.ok false
      | HttpOutcome.ok _ => PyResult.ok true
      | HttpOutcome.codeError _ => PyResult.ok false
      | HttpOutcome.exn => PyResult.ok false

/-- Source lines 172-225: query_3pe.  The kind check precedes the url check,
so an unrecognised kind raises ValueError even on a push-disabled service.
A non-list response yields []; list elements failing _is_valid_3pe_result are
dropped; any exception yields []. -/
def query_3pe (service : ApplicationService) (kind : String)
    (protocol : String) (fields : List (String × List String))
    (resp : HttpOutcome Json) : PyResult (List Json) :=
  match (if kind = ThirdPartyEntityKind.USER then some "userid"
         else if kind = ThirdPartyEntityKind.LOCATION then some "alias"
         else none) with
  | none => PyResult.valueError
  | some required_field =>
    match service.url with
    | none => PyResult.ok []
    | some _ =>
      match service.hs_token with
      | none => PyResult.assertFail AssertKind.hsTokenNotNone
      | some _ =>
        match resp with
        | HttpOutcome.ok (Json.arr items) =>
          PyResult.ok (items.filter (fun r => _is_valid_3pe_result r required_field))
        | HttpOutcome.ok _ => PyResult.ok []
        | HttpOutcome.codeError _ => PyResult.ok []
        | HttpOutcome.exn => PyResult.ok []

/-- Modelled from the spec: synapse.types.ThirdPartyInstanceID.to_string
(synapse/types is not under src/) — the deterministic combination of the
application service id and the instance network id. -/
def third_party_instance_id_to_string (appservice_id network_id : String) :
    String :=
  appservice_id ++ "|" ++ network_id

/-- Python str() of a JSON scalar, used when formatting a network id into an
instance id; composite values are abbreviated (no claim depends on them). -/
def pyStrOfJson : Json → String
  | Json.null => "None"
  | Json.bool true => "True"
  | Json.bool false => "False"
  | Json.num n => toString n
  | Json.str s => s
  | Json.arr _ => "<list>"
  | Json.obj _ => "<dict>"

/-- Source lines 254-259: one iteration of the instance-enrichment loop in
get_3pe_protocol.  A missing or null network_id leaves the instance untouched;
otherwise instance["instance_id"] is assigned.  A non-mapping instance makes
instance.get raise, which the surrounding except clause turns into None. -/
def enrich_instance (service_id : String) (inst : Json) : Option Json :=
  match inst with
  | Json.obj kvs =>
    match jLookup kvs "network_id" with
    | none => some (Json.obj kvs)
    | some Json.null => some (Json.obj kvs)
    | some nid =>
      some (Json.obj (jSet kvs "instance_id"
        (Json.str (third_party_instance_id_to_string service_id (pyStrOfJson nid)))))
  | _ => none

/-- The enrichment loop over the whole instances list; none signals that some
iteration raised. -/
def enrich_instances (service_id : String) : List Json → Option (List Json)
  | [] => some []
  | i :: rest =>
    match enrich_instance service_id i, enrich_instances service_id rest with
    | some j, some js => some (j :: js)
    | _, _ => none

/-- Source lines 233-264: the _get closure of get_3pe_protocol, the part that
reaches the network on a cache miss.  Asserts hs_token, validates the
metadata shape, enriches the instances, and converts every exception or
validation failure into None. -/
def get_3pe_protocol_fetch (service : ApplicationService)
    (resp : HttpOutcome Json) : PyResult (Option Json) :=
  match service.hs_token with
  | none => PyResult.assertFail AssertKind.hsTokenNotNone
  | some _ =>
    match resp with
    | HttpOutcome.ok info =>
      if _is_valid_3pe_metadata info then
        match info with
        | Json.obj kvs =>
          match jLookup kvs "instances" with
          | some (Json.arr insts) =>
            match enrich_instances service.id insts with
            | some insts2 =>
              PyResult.ok (some (Json.obj (jSet kvs "instances" (Json.arr insts2))))
            | none => PyResult.ok none
          | _ => PyResult.ok (some (Json.obj kvs))
        | _ => PyResult.ok none
      else PyResult.ok none
    | HttpOutcome.codeError _ => PyResult.ok none
    | HttpOutcome.exn => PyResult.ok none

/-- Source lines 227-267: get_3pe_protocol.  url = none returns {} without
touching the cache; otherwise the result is that of _get (the response cache,
modelled separately as ResponseCacheModel, memoizes _get under the key
(service.id, protocol)). -/
def get_3pe_protocol (service : ApplicationService) (protocol : String)
    (resp : HttpOutcome Json) : PyResult (Option Json) :=
  match service.url with
  | none => PyResult.ok (some (Json.obj []))
  | some _ => get_3pe_protocol_fetch service resp

/-- Source line 266: the cache key of the protocol-metadata cache. -/
def protocol_meta_cache_key (service : ApplicationService) (protocol : String) :
    String × String :=
  (service.id, protocol)

/-- Source line 277: the ping endpoint appended to the service url. -/
def ping_uri (url : String) : String :=
  url ++ "/_matrix/app/unstable/fi.mau.msc2659/ping"

/-- Source line 278: the JSON body posted by ping. -/
def ping_body (txn_id : Option String) : Json :=
  Json.obj [("transaction_id",
    match txn_id with
    | none => Json.null
    | some t => Json.str t)]

/-- Source lines 269-280: ping.  Asserts that url and hs_token are set, then
posts; there is no try/except, so every transport outcome other than success
propagates to the caller. -/
def ping (service : ApplicationService) (txn_id : Option String)
    (resp : HttpOutcome Json) : PyResult Unit :=
  match service.url with
  | none => PyResult.assertFail AssertKind.pingUrlSet
  | some _ =>
    match service.hs_token with
    | none => PyResult.assertFail AssertKind.hsTokenNotNone
    | some _ =>
      match resp with
      | HttpOutcome.ok _ => PyResult.ok ()
      | HttpOutcome.codeError c => PyResult.httpError c
      | HttpOutcome.exn => PyResult.err

/-- Source lines 324-351: the transaction body built by push_bulk, as an
ordered list of JSON object fields.  "events" is always present; the two
de.sorunome.msc2409 fields are added only when the service supports ephemeral
events; the org.matrix.msc3202 fields are added only when the service has
msc3202 transaction extensions and the corresponding value is truthy.  The
truthiness of DeviceListUpdates is modelled from the spec as "changed or left
is non-empty" (synapse/types is not under src/). -/
def push_bulk_body (service : ApplicationService)
    (serialized_events ephemeral to_device_messages : List Json)
    (one_time_keys_count unused_fallback_keys : List (String × Json))
    (device_list_changed device_list_left : List String) :
    List (String × Json) :=
  [("events", Json.arr serialized_events)]
  ++ (if service.supports_ephemeral then
        [("de.sorunome.msc2409.ephemeral", Json.arr ephemeral),
         ("de.sorunome.msc2409.to_device", Json.arr to_device_messages)]
      else [])
  ++ (if service.msc3202_transaction_extensions then
        (if one_time_keys_count.isEmpty then []
         else
           [("org.matrix.msc3202.device_one_time_key_counts",
             Json.obj one_time_keys_count),
            ("org.matrix.msc3202.device_one_time_keys_count",
             Json.obj one_time_keys_count)])
        ++ (if unused_fallback_keys.isEmpty then []
            else
              [("org.matrix.msc3202.device_unused_fallback_key_types",
                Json.obj unused_fallback_keys)])
        ++ (if device_list_changed.isEmpty && device_list_left.isEmpty then []
            else
              [("org.matrix.msc3202.device_lists",
                Json.obj
                  [("changed", Json.arr (device_list_changed.map Json.str)),
                   ("left", Json.arr (device_list_left.map Json.str))])])
      else [])

/-- Source lines 282-389: push_bulk.  url = none returns True immediately;
then the hs_token assertion; a successful PUT of the body returns True and
every CodeMessageException or other exception returns False.  The events are
passed already serialized because serialize_event lives outside src/. -/
def push_bulk (service : ApplicationService)
    (serialized_events ephemeral to_device_messages : List Json)
    (one_time_keys_count unused_fallback_keys : List (String × Json))
    (device_list_changed device_list_left : List String)
    (txn_id : Option Int) (resp : HttpOutcome Json) : PyResult Bool :=
  match service.url with
  | none => PyResult.ok true
  | some _ =>
    match service.hs_token with
    | none => PyResult.assertFail AssertKind.hsTokenNotNone
    | some _ =>
      match resp with
      | HttpOutcome.ok _ => PyResult.ok true
      | HttpOutcome.codeError _ => PyResult.ok false
      | HttpOutcome.exn => PyResult.ok false

/-- A (user ID, device ID, algorithm) triple of a one-time-key claim query. -/
abbrev ClaimTriple : Type := String × String × String

/-- A well-formed key-claim response: user ID → device ID → key ID → key
object, each mapping a Python dict kept as an insertion-ordered association
list. -/
abbrev KeyClaimResponse : Type :=
  List (String × List (String × List (String × Json)))

/-- Source lines 414-416: the request body of claim_client_keys, grouping the
queried triples into user → device → list of algorithms with
setdefault/append. -/
def claim_client_keys_body (query : List ClaimTriple) :
    List (String × List (String × List String)) :=
  query.foldl
    (fun body t =>
      aupdate body t.1 []
        (fun devs => aupdate devs t.2.1 [] (fun algs => algs ++ [t.2.2])))
    []

/-- Source line 442: response.get(user_id, {}).get(device, []) — the container
whose membership decides whether a triple was fulfilled.  For a present device
entry (a dict of key ID → key object) Python membership tests the keys; a
missing user or device yields the empty default. -/
def response_algorithms (response : KeyClaimResponse) (user_id device : String) :
    List String :=
  match alookup response user_id with
  | none => []
  | some devs =>
    match alookup devs device with
    | none => []
    | some algs => algs.map Prod.fst

/-- Source lines 391-445: claim_client_keys.  url = none returns ({}, query);
then the hs_token assertion; HTTP 404/405, any other CodeMessageException and
any other exception all return ({}, query); on success the missing list keeps,
in order and verbatim, exactly the queried triples whose algorithm is not
among response[user][device]. -/
def claim_client_keys (service : ApplicationService)
    (query : List ClaimTriple) (resp : HttpOutcome KeyClaimResponse) :
    PyResult (KeyClaimResponse × List ClaimTriple) :=
  match service.url with
  | none => PyResult.ok ([], query)
  | some _ =>
    match service.hs_token with
    | none => PyResult.assertFail AssertKind.hsTokenNotNone
    | some _ =>
      match resp with
      | HttpOutcome.ok response =>
        PyResult.ok (response,
          query.filter (fun t =>
            decide (t.2.2 ∉ response_algorithms response t.1 t.2.1)))
      | HttpOutcome.codeError _ => PyResult.ok ([], query)
      | HttpOutcome.exn => PyResult.ok ([], query)

/-- Modelled from the spec: ResponseCache (synapse/util/caches/response_cache.py
is not under src/).  Spec section 4.1: wrap(key, producer) returns a live
cached entry without invoking the producer again, otherwise invokes the
producer exactly once and stores its result with expiry = now + TTL; entries
are evicted lazily on the next lookup past expiry.  Under the cooperative
single-threaded scheduling of section 5, concurrent callers are interleavings
of atomic wrap steps, so single-flight means a second wrap of the same key
before expiry returns the stored result without invoking its producer. -/
structure ResponseCacheModel (α : Type) : Type where
  ttl_ms : Nat
  entries : List ((String × String) × (Nat × α))

/-- A live (non-expired) cache entry, if any: lazy expiry means an entry past
its expiry timestamp behaves as absent. -/
def cacheLookup {α : Type} (c : ResponseCacheModel α) (key : String × String)
    (now : Nat) : Option α :=
  match alookup c.entries key with
  | some (expiry, v) => if now < expiry then some v else none
  | none => none

/-- The observable outcome of one wrap call: the value handed to the caller,
the cache afterwards, and whether the producer (the outbound network call)
was invoked. -/
structure WrapOutcome (α : Type) : Type where
  value : α
  cache : ResponseCacheModel α
  invoked : Bool

/-- Modelled from the spec: ResponseCache.wrap.  A live entry is returned
without invoking the producer; otherwise the producer runs once and its
result is stored with expiry now + TTL. -/
def cacheWrap {α : Type} (c : ResponseCacheModel α) (key : String × String)
    (now : Nat) (producer : α) : WrapOutcome α :=
  match cacheLookup c key now with
  | some v => ⟨v, c, false⟩
  | none =>
    ⟨producer,
     ⟨c.ttl_ms, aset c.entries key (now + c.ttl_ms, producer)⟩,
     true⟩

/-- A fully configured service used to instantiate the theorems. -/
def svcFull : ApplicationService :=
  ⟨"as1", some "https://as.example", some "secret", true, true⟩

/-- A push-disabled service (url = none). -/
def svcNoUrl : ApplicationService :=
  ⟨"as1", none, some "secret", true, true⟩

/-- A misconfigured service: url set but hs_token missing. -/
def svcNoToken : ApplicationService :=
  ⟨"as1", some "https://as.example", none, true, true⟩

/-- A configured service without the ephemeral capability flag. -/
def svcNoEph : ApplicationService :=
  ⟨"as1", some "https://as.example", some "secret", false, false⟩

/-- The key-claim query of the worked spec example. -/
def exampleClaimQuery : List ClaimTriple :=
  [("u1", "d1", "alg1"), ("u1", "d1", "alg2")]

/-- The key-claim response of the worked spec example: only alg1 is mapped
for (u1, d1). -/
def exampleClaimResponse : KeyClaimResponse :=
  [("u1", [("d1", [("alg1", Json.obj [])])])]

/-- A valid third-party user result. -/
def exampleValid3peResult : Json :=
  Json.obj [("userid", Json.str "@u:bridge"), ("protocol", Json.str "irc"),
            ("fields", Json.obj [])]

/-- An invalid third-party result: the "fields" mapping is missing. -/
def exampleInvalid3peResult : Json :=
  Json.obj [("userid", Json.str "@v:bridge"), ("protocol", Json.str "irc")]

/-- An initially empty protocol-metadata cache with the one-hour TTL of
source line 121. -/
def exampleProtocolMetaCache : ResponseCacheModel (PyResult (Option Json)) :=
  ⟨HOUR_IN_MS, []⟩

/-- jLookup distributes over list append: the first list wins when it holds
the key. -/
theorem jLookup_append_of_none (l1 l2 : List (String × Json)) (k : String)
    (h : jLookup l1 k = none) : jLookup (l1 ++ l2) k = jLookup l2 k := by
  induction l1 with
  | nil => simp
  | cons hd tl ih =>
    obtain ⟨k0, v0⟩ := hd
    by_cases hk : k0 = k
    · simp [jLookup, hk] at h
    · simp only [jLookup, hk, if_false, List.cons_append] at h ⊢
      exact ih h

/-- jLookup distributes over list append: a hit in the first list is the
overall result. -/
theorem jLookup_append_of_some (l1 l2 : List (String × Json)) (k : String)
    (v : Json) (h : jLookup l1 k = some v) : jLookup (l1 ++ l2) k = some v := by
  induction l1 with
  | nil => simp [jLookup] at h
  | cons hd tl ih =>
    obtain ⟨k0, v0⟩ := hd
    by_cases hk : k0 = k
    · simp only [jLookup, hk, if_true] at h ⊢
      simpa using h
    · simp only [jLookup, hk, if_false, List.cons_append] at h ⊢
      exact ih h

/-- Overwriting a key makes it the value found by the next lookup. -/
theorem alookup_aset_self {κ β : Type} [DecidableEq κ]
    (es : List (κ × β)) (k : κ) (v : β) : alookup (aset es k v) k = some v := by
  induction es with
  | nil => simp [aset, alookup]
  | cons hd tl ih =>
    obtain ⟨k0, v0⟩ := hd
    by_cases hk : k0 = k
    · simp [aset, alookup, hk]
    · simp [aset, alookup, hk, ih]

/-- C3: on a service whose url is null, every operation returns its documented
no-op default — false for queryUserExists and queryAliasExists, [] for
query3pe on a documented kind, the empty mapping for get3peProtocolMetadata, true for
pushTransaction and (the empty mapping, query) for claimOneTimeKeys — and the result is
the same for every transport outcome, so no network call is observed. -/
theorem no_url_operations_default (service : ApplicationService)
    (h : service.url = none) :
    (∀ user_id resp, query_user service user_id resp = PyResult.ok false) ∧
    (∀ room_alias resp, query_alias service room_alias resp = PyResult.ok false) ∧
    (∀ kind protocol fields resp,
      kind = ThirdPartyEntityKind.USER ∨ kind = ThirdPartyEntityKind.LOCATION →
      query_3pe service kind protocol fields resp = PyResult.ok []) ∧
    (∀ protocol resp,
      get_3pe_protocol service protocol resp = PyResult.ok (some (Json.obj []))) ∧
    (∀ ev eph td otk fb dlc dll txn resp,
      push_bulk service ev eph td otk fb dlc dll txn resp = PyResult.ok true) ∧
    (∀ query resp,
      claim_client_keys service query resp = PyResult.ok ([], query)) := by
  refine ⟨?_, ?_, ?_, ?_, ?_, ?_⟩
  · intro user_id resp
    simp [query_user, h]
  · intro room_alias resp
    simp [query_alias, h]
  · intro kind protocol fields resp hk
    rcases hk with hk | hk <;> subst hk <;>
      simp [query_3pe, h, ThirdPartyEntityKind.USER, ThirdPartyEntityKind.LOCATION]
  · intro protocol resp
    simp [get_3pe_protocol, h]
  · intro ev eph td otk fb dlc dll txn resp
    simp [push_bulk, h]
  · intro query resp
    simp [claim_client_keys, h]

/-- C3 witness: the no-op defaults at a concrete push-disabled service, under
a transport outcome that would be an error if it were ever consulted. -/
theorem no_url_operations_default_witness :
    query_user svcNoUrl "@u:hs" (HttpOutcome.codeError 500) = PyResult.ok false ∧
    query_alias svcNoUrl "#r:hs" (HttpOutcome.exn) = PyResult.ok false ∧
    query_3pe svcNoUrl "user" "irc" [] (HttpOutcome.codeError 500) = PyResult.ok [] ∧
    get_3pe_protocol svcNoUrl "irc" (HttpOutcome.exn) = PyResult.ok (some (Json.obj [])) ∧
    push_bulk svcNoUrl [] [] [] [] [] [] [] none (HttpOutcome.exn) = PyResult.ok true ∧
    claim_client_keys svcNoUrl exampleClaimQuery (HttpOutcome.codeError 500) =
      PyResult.ok ([], exampleClaimQuery) := by
  obtain ⟨h1, h2, h3, h4, h5, h6⟩ := no_url_operations_default svcNoUrl rfl
  exact ⟨h1 _ _, h2 _ _, h3 "user" "irc" [] _ (Or.inl rfl), h4 _ _, h5 [] [] [] [] [] [] [] none _, h6 _ _⟩

/-- C10: query_3pe checks the kind argument before the url check, so any kind
other than "user" or "location" raises ValueError for every service, push
disabled ones included, and for every transport outcome. -/
theorem query_3pe_bad_kind_raises (service : ApplicationService) (kind : String)
    (h1 : kind ≠ ThirdPartyEntityKind.USER)
    (h2 : kind ≠ ThirdPartyEntityKind.LOCATION)
    (protocol : String) (fields : List (String × List String))
    (resp : HttpOutcome Json) :
    query_3pe service kind protocol fields resp = PyResult.valueError := by
  simp [query_3pe, h1, h2]

/-- C10 witness: a bogus kind on a push-disabled service raises rather than
being absorbed into the not-configured empty-list default. -/
theorem query_3pe_bad_kind_raises_witness :
    query_3pe svcNoUrl "bogus" "irc" [] (HttpOutcome.codeError 500) =
      PyResult.valueError :=
  query_3pe_bad_kind_raises svcNoUrl "bogus" (by decide) (by decide) "irc" [] _

/-- C1: on a configured service, a well-formed key-claim response makes
claim_client_keys return the response itself together with the missing list
obtained by filtering the original query: a triple survives, verbatim and in
order, exactly when its algorithm string is not among the keys of
response[user][device] (a missing user or device entry counts as containing
nothing). -/
theorem claim_client_keys_missing_characterization
    (service : ApplicationService) (u tok : String)
    (hu : service.url = some u) (ht : service.hs_token = some tok)
    (query : List ClaimTriple) (response : KeyClaimResponse) :
    claim_client_keys service query (HttpOutcome.ok response) =
      PyResult.ok (response,
        query.filter (fun t =>
          decide (t.2.2 ∉ response_algorithms response t.1 t.2.1))) ∧
    ∀ t : ClaimTriple,
      t ∈ query.filter (fun t =>
          decide (t.2.2 ∉ response_algorithms response t.1 t.2.1)) ↔
      t ∈ query ∧ t.2.2 ∉ response_algorithms response t.1 t.2.1 := by
  constructor
  · simp [claim_client_keys, hu, ht]
  · intro t
    simp [List.mem_filter]

/-- C1 witness: the worked spec example — query [(u1,d1,alg1), (u1,d1,alg2)]
against a response mapping only alg1 for (u1,d1) yields missing =
[(u1,d1,alg2)]. -/
theorem claim_client_keys_missing_characterization_witness :
    claim_client_keys svcFull exampleClaimQuery
        (HttpOutcome.ok exampleClaimResponse) =
      PyResult.ok (exampleClaimResponse, [("u1", "d1", "alg2")]) := by
  have h := (claim_client_keys_missing_characterization svcFull
    "https://as.example" "secret" rfl rfl exampleClaimQuery
    exampleClaimResponse).1
  rw [h]
  rfl

/-- C2: on a configured service, claim_client_keys maps HTTP 404, HTTP 405,
every other status-code error and every other transport exception to the pair
(the empty mapping, query) whose second component is the original query list itself
(the embedding is pure, so the input is never mutated). -/
theorem claim_client_keys_error_returns_original
    (service : ApplicationService) (u tok : String)
    (hu : service.url = some u) (ht : service.hs_token = some tok)
    (query : List ClaimTriple) :
    (∀ code, claim_client_keys service query (HttpOutcome.codeError code) =
      PyResult.ok ([], query)) ∧
    claim_client_keys service query HttpOutcome.exn = PyResult.ok ([], query) := by
  constructor
  · intro code
    simp [claim_client_keys, hu, ht]
  · simp [claim_client_keys, hu, ht]

/-- C2 witness: HTTP 404, HTTP 405 and a plain exception at a concrete
configured service and concrete query. -/
theorem claim_client_keys_error_returns_original_witness :
    claim_client_keys svcFull exampleClaimQuery (HttpOutcome.codeError 404) =
      PyResult.ok ([], exampleClaimQuery) ∧
    claim_client_keys svcFull exampleClaimQuery (HttpOutcome.codeError 405) =
      PyResult.ok ([], exampleClaimQuery) ∧
    claim_client_keys svcFull exampleClaimQuery HttpOutcome.exn =
      PyResult.ok ([], exampleClaimQuery) := by
  obtain ⟨h1, h2⟩ := claim_client_keys_error_returns_original svcFull
    "https://as.example" "secret" rfl rfl exampleClaimQuery
  exact ⟨h1 404, h1 405, h2⟩

/-- C4 counterexample: a successful transport call (2xx) whose body parses to
JSON null makes query_user and query_alias return false, refuting "true
exactly when the transport call succeeds — any JSON body". -/
theorem query_existence_null_body_counterexample :
    query_user svcFull "@u:hs" (HttpOutcome.ok Json.null) = PyResult.ok false ∧
    query_user svcFull "@u:hs" (HttpOutcome.ok Json.null) ≠ PyResult.ok true ∧
    query_alias svcFull "#r:hs" (HttpOutcome.ok Json.null) = PyResult.ok false ∧
    query_alias svcFull "#r:hs" (HttpOutcome.ok Json.null) ≠ PyResult.ok true := by
  refine ⟨rfl, ?_, rfl, ?_⟩ <;> decide

/-- C4 (amended): on a configured service, query_user and query_alias return
false on HTTP 404 and on every other transport error, and return true exactly
when the call succeeds with a non-null JSON body; a 2xx whose body parses to
JSON null (Python None) yields false. -/
theorem query_existence_result_semantics (service : ApplicationService)
    (u tok : String) (hu : service.url = some u)
    (ht : service.hs_token = some tok) :
    (∀ user_id v, v ≠ Json.null →
      query_user service user_id (HttpOutcome.ok v) = PyResult.ok true) ∧
    (∀ user_id,
      query_user service user_id (HttpOutcome.ok Json.null) = PyResult.ok false) ∧
    (∀ user_id code,
      query_user service user_id (HttpOutcome.codeError code) = PyResult.ok false) ∧
    (∀ user_id, query_user service user_id HttpOutcome.exn = PyResult.ok false) ∧
    (∀ room_alias v, v ≠ Json.null →
      query_alias service room_alias (HttpOutcome.ok v) = PyResult.ok true) ∧
    (∀ room_alias,
      query_alias service room_alias (HttpOutcome.ok Json.null) = PyResult.ok false) ∧
    (∀ room_alias code,
      query_alias service room_alias (HttpOutcome.codeError code) = PyResult.ok false) ∧
    (∀ room_alias, query_alias service room_alias HttpOutcome.exn = PyResult.ok false) := by
  refine ⟨?_, ?_, ?_, ?_, ?_, ?_, ?_, ?_⟩ <;> intros <;>
    first
      | (rename_i v hv
         cases v <;> simp_all [query_user, query_alias, hu, ht])
      | simp [query_user, query_alias, hu, ht]

/-- C4 witness: concrete instances — an empty JSON object signals existence,
404 and a transport exception signal absence. -/
theorem query_existence_result_semantics_witness :
    query_user svcFull "@u:hs" (HttpOutcome.ok (Json.obj [])) = PyResult.ok true ∧
    query_user svcFull "@u:hs" (HttpOutcome.codeError 404) = PyResult.ok false ∧
    query_alias svcFull "#r:hs" (HttpOutcome.ok (Json.obj [])) = PyResult.ok true ∧
    query_alias svcFull "#r:hs" HttpOutcome.exn = PyResult.ok false := by
  obtain ⟨h1, _, h3, _, h5, _, _, h8⟩ := query_existence_result_semantics svcFull
    "https://as.example" "secret" rfl rfl
  exact ⟨h1 "@u:hs" (Json.obj []) (by simp), h3 "@u:hs" 404,
         h5 "#r:hs" (Json.obj []) (by simp), h8 "#r:hs"⟩

/-- The validator _is_valid_3pe_result, spelt out: the value is a mapping in
which the required field and "protocol" hold strings and "fields" holds a
mapping. -/
theorem _is_valid_3pe_result_iff (r : Json) (field : String) :
    _is_valid_3pe_result r field = true ↔
    ∃ kvs, r = Json.obj kvs ∧
      (∃ s, jLookup kvs field = some (Json.str s)) ∧
      (∃ s, jLookup kvs "protocol" = some (Json.str s)) ∧
      (∃ m, jLookup kvs "fields" = some (Json.obj m)) := by
  have hstr : ∀ (kvs : List (String × Json)) (k : String),
      jIsStrAt kvs k = true ↔ ∃ s, jLookup kvs k = some (Json.str s) := by
    intro kvs k
    unfold jIsStrAt
    cases h : jLookup kvs k with
    | none => simp
    | some v => cases v <;> simp
  have hobj : ∀ (kvs : List (String × Json)) (k : String),
      jIsObjAt kvs k = true ↔ ∃ m, jLookup kvs k = some (Json.obj m) := by
    intro kvs k
    unfold jIsObjAt
    cases h : jLookup kvs k with
    | none => simp
    | some v => cases v <;> simp
  cases r <;> simp [_is_valid_3pe_result, hstr, hobj, and_assoc]

/-- C6: on a configured service, query_3pe keeps exactly the response-list
elements accepted by _is_valid_3pe_result — mappings holding the required
field ("userid" for kind user, "alias" for kind location) and "protocol" as
strings and "fields" as a mapping — dropping invalid elements per item, and a
non-list response yields the empty list. -/
theorem query_3pe_filters_valid_results (service : ApplicationService)
    (u tok : String) (hu : service.url = some u)
    (ht : service.hs_token = some tok) (protocol : String)
    (fields : List (String × List String)) :
    (∀ items, query_3pe service ThirdPartyEntityKind.USER protocol fields
        (HttpOutcome.ok (Json.arr items)) =
      PyResult.ok (items.filter (fun r => _is_valid_3pe_result r "userid"))) ∧
    (∀ items, query_3pe service ThirdPartyEntityKind.LOCATION protocol fields
        (HttpOutcome.ok (Json.arr items)) =
      PyResult.ok (items.filter (fun r => _is_valid_3pe_result r "alias"))) ∧
    (∀ v, (∀ items, v ≠ Json.arr items) →
      query_3pe service ThirdPartyEntityKind.USER protocol fields
          (HttpOutcome.ok v) = PyResult.ok [] ∧
      query_3pe service ThirdPartyEntityKind.LOCATION protocol fields
          (HttpOutcome.ok v) = PyResult.ok []) ∧
    (∀ r field, _is_valid_3pe_result r field = true ↔
      ∃ kvs, r = Json.obj kvs ∧
        (∃ s, jLookup kvs field = some (Json.str s)) ∧
        (∃ s, jLookup kvs "protocol" = some (Json.str s)) ∧
        (∃ m, jLookup kvs "fields" = some (Json.obj m))) := by
  refine ⟨?_, ?_, ?_, fun r field => _is_valid_3pe_result_iff r field⟩
  · intro items
    simp [query_3pe, hu, ht, ThirdPartyEntityKind.USER, ThirdPartyEntityKind.LOCATION]
  · intro items
    simp [query_3pe, hu, ht, ThirdPartyEntityKind.USER, ThirdPartyEntityKind.LOCATION]
  · intro v hv
    constructor <;>
      cases v <;>
        first
          | exact absurd rfl (hv _)
          | simp [query_3pe, hu, ht, ThirdPartyEntityKind.USER,
                  ThirdPartyEntityKind.LOCATION]

/-- C6 witness: the spec example — one valid user result and one result
missing "fields" leave only the valid one; a non-list response gives []. -/
theorem query_3pe_filters_valid_results_witness :
    query_3pe svcFull "user" "irc" []
        (HttpOutcome.ok (Json.arr [exampleValid3peResult, exampleInvalid3peResult])) =
      PyResult.ok [exampleValid3peResult] ∧
    query_3pe svcFull "user" "irc" [] (HttpOutcome.ok (Json.obj [])) =
      PyResult.ok [] := by
  obtain ⟨h1, _, h3, _⟩ := query_3pe_filters_valid_results svcFull
    "https://as.example" "secret" rfl rfl "irc" []
  constructor
  · rw [show ("user" : String) = ThirdPartyEntityKind.USER from rfl,
        h1 [exampleValid3peResult, exampleInvalid3peResult]]
    rfl
  · exact (h3 (Json.obj []) (fun items h => by cases h)).1

/-- C7 counterexample: the ping endpoint built by the code is
/_matrix/app/unstable/fi.mau.msc2659/ping, not the claimed
/_matrix/app/unstable/msc2659/ping. -/
theorem ping_uri_counterexample :
    ping_uri "https://as.example" ≠
      "https://as.example" ++ "/_matrix/app/unstable/msc2659/ping" := by
  decide

/-- C7 (amended): for every service with url and hs_token set and every
optional transaction id, ping posts the JSON body (transaction_id) to
(url)/_matrix/app/unstable/fi.mau.msc2659/ping, and it is the only
operation that propagates errors: a status-code error surfaces as that
CodeMessageException and any other transport exception also propagates. -/
theorem ping_endpoint_and_error_propagation (service : ApplicationService)
    (u tok : String) (hu : service.url = some u)
    (ht : service.hs_token = some tok) (txn_id : Option String) :
    ping_uri u = u ++ "/_matrix/app/unstable/fi.mau.msc2659/ping" ∧
    (∀ t, ping_body (some t) = Json.obj [("transaction_id", Json.str t)]) ∧
    ping_body none = Json.obj [("transaction_id", Json.null)] ∧
    (∀ v, ping service txn_id (HttpOutcome.ok v) = PyResult.ok ()) ∧
    (∀ code, ping service txn_id (HttpOutcome.codeError code) =
      PyResult.httpError code) ∧
    ping service txn_id HttpOutcome.exn = PyResult.err := by
  refine ⟨rfl, fun t => rfl, rfl, ?_, ?_, ?_⟩
  · intro v
    simp [ping, hu, ht]
  · intro code
    simp [ping, hu, ht]
  · simp [ping, hu, ht]

/-- C7 witness: concrete endpoint string and propagated HTTP 502 and
transport failure at a concrete service. -/
theorem ping_endpoint_and_error_propagation_witness :
    ping_uri "https://as.example" =
      "https://as.example" ++ "/_matrix/app/unstable/fi.mau.msc2659/ping" ∧
    ping svcFull (some "txn7") (HttpOutcome.codeError 502) =
      PyResult.httpError 502 ∧
    ping svcFull (some "txn7") HttpOutcome.exn = PyResult.err := by
  obtain ⟨h1, _, _, _, h5, h6⟩ := ping_endpoint_and_error_propagation svcFull
    "https://as.example" "secret" rfl rfl (some "txn7")
  exact ⟨h1, h5 502, h6⟩

/-- No org.matrix.msc3202 body field ever uses one of the
de.sorunome.msc2409 keys, whatever the capability flags and payloads. -/
theorem msc3202_fields_have_no_msc2409_key (service : ApplicationService)
    (otk fb : List (String × Json)) (dlc dll : List String) (k : String)
    (hk : k = "de.sorunome.msc2409.ephemeral" ∨
          k = "de.sorunome.msc2409.to_device") :
    jLookup
      (if service.msc3202_transaction_extensions then
        (if otk.isEmpty then []
         else
           [("org.matrix.msc3202.device_one_time_key_counts", Json.obj otk),
            ("org.matrix.msc3202.device_one_time_keys_count", Json.obj otk)])
        ++ (if fb.isEmpty then []
            else
              [("org.matrix.msc3202.device_unused_fallback_key_types",
                Json.obj fb)])
        ++ (if dlc.isEmpty && dll.isEmpty then []
            else
              [("org.matrix.msc3202.device_lists",
                Json.obj
                  [("changed", Json.arr (dlc.map Json.str)),
                   ("left", Json.arr (dll.map Json.str))])])
      else []) k = none := by
  rcases hk with hk | hk <;> subst hk <;>
    rcases service.msc3202_transaction_extensions with _ | _ <;>
    rcases otk.isEmpty with _ | _ <;>
    rcases fb.isEmpty with _ | _ <;>
    rcases (dlc.isEmpty && dll.isEmpty) with _ | _ <;>
    simp [jLookup]

/-- C5: when the service lacks the supports_ephemeral flag, the transaction
body built by push_bulk holds neither the ephemeral field
de.sorunome.msc2409.ephemeral nor the to-device field
de.sorunome.msc2409.to_device, even for non-empty argument lists; with the
flag set, both fields are present and carry exactly the supplied lists. -/
theorem push_bulk_body_ephemeral_gating (service : ApplicationService)
    (ev eph td : List Json) (otk fb : List (String × Json))
    (dlc dll : List String) :
    (service.supports_ephemeral = false →
      jLookup (push_bulk_body service ev eph td otk fb dlc dll)
        "de.sorunome.msc2409.ephemeral" = none ∧
      jLookup (push_bulk_body service ev eph td otk fb dlc dll)
        "de.sorunome.msc2409.to_device" = none) ∧
    (service.supports_ephemeral = true →
      jLookup (push_bulk_body service ev eph td otk fb dlc dll)
        "de.sorunome.msc2409.ephemeral" = some (Json.arr eph) ∧
      jLookup (push_bulk_body service ev eph td otk fb dlc dll)
        "de.sorunome.msc2409.to_device" = some (Json.arr td)) := by
  constructor
  · intro h
    constructor <;>
    · simp only [push_bulk_body, h, if_false, Bool.false_eq_true,
        List.append_nil]
      rw [jLookup_append_of_none _ _ _ (by simp [jLookup])]
      exact msc3202_fields_have_no_msc2409_key service otk fb dlc dll _
        (by simp)
  · intro h
    constructor
    · simp only [push_bulk_body, h, if_true, List.append_assoc]
      rw [jLookup_append_of_none _ _ _ (by simp [jLookup]),
          jLookup_append_of_some _ _ _ (Json.arr eph) (by simp [jLookup])]
    · simp only [push_bulk_body, h, if_true, List.append_assoc]
      rw [jLookup_append_of_none _ _ _ (by simp [jLookup]),
          jLookup_append_of_some _ _ _ (Json.arr td) (by simp [jLookup])]

/-- C5 witness: with non-empty ephemeral and to-device payloads, the
capability-less service omits both fields and the capable service carries
them. -/
theorem push_bulk_body_ephemeral_gating_witness :
    jLookup (push_bulk_body svcNoEph [] [Json.num 1] [Json.num 2] [] [] [] [])
      "de.sorunome.msc2409.ephemeral" = none ∧
    jLookup (push_bulk_body svcNoEph [] [Json.num 1] [Json.num 2] [] [] [] [])
      "de.sorunome.msc2409.to_device" = none ∧
    jLookup (push_bulk_body svcFull [] [Json.num 1] [Json.num 2] [] [] [] [])
      "de.sorunome.msc2409.ephemeral" = some (Json.arr [Json.num 1]) ∧
    jLookup (push_bulk_body svcFull [] [Json.num 1] [Json.num 2] [] [] [] [])
      "de.sorunome.msc2409.to_device" = some (Json.arr [Json.num 2]) := by
  obtain ⟨hoff, _⟩ := push_bulk_body_ephemeral_gating svcNoEph
    [] [Json.num 1] [Json.num 2] [] [] [] []
  obtain ⟨_, hon⟩ := push_bulk_body_ephemeral_gating svcFull
    [] [Json.num 1] [Json.num 2] [] [] [] []
  obtain ⟨h1, h2⟩ := hoff rfl
  obtain ⟨h3, h4⟩ := hon rfl
  exact ⟨h1, h2, h3, h4⟩

/-- C9: every operation that reaches the network asserts hs_token before its
HTTP call — on a service with url set but hs_token = none each such operation
aborts with the hs_token AssertionError for every transport outcome, instead
of sending or soft-failing — and under the configuration invariant (url set
implies hs_token set) no operation ever surfaces that AssertionError. -/
theorem hs_token_assertion_discipline (service : ApplicationService) :
    (∀ u, service.url = some u → service.hs_token = none →
      (∀ user_id resp, query_user service user_id resp =
        PyResult.assertFail AssertKind.hsTokenNotNone) ∧
      (∀ room_alias resp, query_alias service room_alias resp =
        PyResult.assertFail AssertKind.hsTokenNotNone) ∧
      (∀ kind protocol fields resp,
        (kind = ThirdPartyEntityKind.USER ∨ kind = ThirdPartyEntityKind.LOCATION) →
        query_3pe service kind protocol fields resp =
          PyResult.assertFail AssertKind.hsTokenNotNone) ∧
      (∀ resp, get_3pe_protocol_fetch service resp =
        PyResult.assertFail AssertKind.hsTokenNotNone) ∧
      (∀ txn_id resp, ping service txn_id resp =
        PyResult.assertFail AssertKind.hsTokenNotNone) ∧
      (∀ ev eph td otk fb dlc dll txn resp,
        push_bulk service ev eph td otk fb dlc dll txn resp =
          PyResult.assertFail AssertKind.hsTokenNotNone) ∧
      (∀ query resp, claim_client_keys service query resp =
        PyResult.assertFail AssertKind.hsTokenNotNone)) ∧
    ((service.url.isSome → service.hs_token.isSome) →
      (∀ user_id resp, query_user service user_id resp ≠
        PyResult.assertFail AssertKind.hsTokenNotNone) ∧
      (∀ room_alias resp, query_alias service room_alias resp ≠
        PyResult.assertFail AssertKind.hsTokenNotNone) ∧
      (∀ kind protocol fields resp, query_3pe service kind protocol fields resp ≠
        PyResult.assertFail AssertKind.hsTokenNotNone) ∧
      (∀ protocol resp, get_3pe_protocol service protocol resp ≠
        PyResult.assertFail AssertKind.hsTokenNotNone) ∧
      (∀ txn_id resp, ping service txn_id resp ≠
        PyResult.assertFail AssertKind.hsTokenNotNone) ∧
      (∀ ev eph td otk fb dlc dll txn resp,
        push_bulk service ev eph td otk fb dlc dll txn resp ≠
          PyResult.assertFail AssertKind.hsTokenNotNone) ∧
      (∀ query resp, claim_client_keys service query resp ≠
        PyResult.assertFail AssertKind.hsTokenNotNone)) := by
  constructor
  · intro u hu ht
    refine ⟨?_, ?_, ?_, ?_, ?_, ?_, ?_⟩
    · intro user_id resp
      simp [query_user, hu, ht]
    · intro room_alias resp
      simp [query_alias, hu, ht]
    · intro kind protocol fields resp hk
      rcases hk with hk | hk <;> subst hk <;>
        simp [query_3pe, hu, ht, ThirdPartyEntityKind.USER,
          ThirdPartyEntityKind.LOCATION]
    · intro resp
      simp [get_3pe_protocol_fetch, ht]
    · intro txn_id resp
      simp [ping, hu, ht]
    · intro ev eph td otk fb dlc dll txn resp
      simp [push_bulk, hu, ht]
    · intro query resp
      simp [claim_client_keys, hu, ht]
  · intro hinv
    have htok : ∀ u, service.url = some u → ∃ tok, service.hs_token = some tok := by
      intro u hu
      have := hinv (by simp [hu])
      exact Option.isSome_iff_exists.mp this
    refine ⟨?_, ?_, ?_, ?_, ?_, ?_, ?_⟩
    · intro user_id resp
      cases hu : service.url with
      | none => simp [query_user, hu]
      | some u =>
        obtain ⟨tok, ht⟩ := htok u hu
        cases resp with
        | ok v => cases v <;> simp [query_user, hu, ht]
        | codeError c => simp [query_user, hu, ht]
        | exn => simp [query_user, hu, ht]
    · intro room_alias resp
      cases hu : service.url with
      | none => simp [query_alias, hu]
      | some u =>
        obtain ⟨tok, ht⟩ := htok u hu
        cases resp with
        | ok v => cases v <;> simp [query_alias, hu, ht]
        | codeError c => simp [query_alias, hu, ht]
        | exn => simp [query_alias, hu, ht]
    · intro kind protocol fields resp
      by_cases hk1 : kind = ThirdPartyEntityKind.USER
      · subst hk1
        cases hu : service.url with
        | none => simp [query_3pe, hu, ThirdPartyEntityKind.USER]
        | some u =>
          obtain ⟨tok, ht⟩ := htok u hu
          cases resp with
          | ok v => cases v <;> simp [query_3pe, hu, ht, ThirdPartyEntityKind.USER]
          | codeError c => simp [query_3pe, hu, ht, ThirdPartyEntityKind.USER]
          | exn => simp [query_3pe, hu, ht, ThirdPartyEntityKind.USER]
      · by_cases hk2 : kind = ThirdPartyEntityKind.LOCATION
        · subst hk2
          cases hu : service.url with
          | none =>
            simp [query_3pe, hu, hk1, ThirdPartyEntityKind.USER,
              ThirdPartyEntityKind.LOCATION]
          | some u =>
            obtain ⟨tok, ht⟩ := htok u hu
            cases resp with
            | ok v =>
              cases v <;> simp [query_3pe, hu, ht, hk1,
                ThirdPartyEntityKind.USER, ThirdPartyEntityKind.LOCATION]
            | codeError c =>
              simp [query_3pe, hu, ht, hk1, ThirdPartyEntityKind.USER,
                ThirdPartyEntityKind.LOCATION]
            | exn =>
              simp [query_3pe, hu, ht, hk1, ThirdPartyEntityKind.USER,
                ThirdPartyEntityKind.LOCATION]
        · simp [query_3pe, hk1, hk2]
    · intro protocol resp
      cases hu : service.url with
      | none => simp [get_3pe_protocol, hu]
      | some u =>
        obtain ⟨tok, ht⟩ := htok u hu
        cases resp with
        | ok v =>
          simp only [get_3pe_protocol, hu, get_3pe_protocol_fetch, ht]
          repeat' split
          all_goals simp
        | codeError c => simp [get_3pe_protocol, hu, get_3pe_protocol_fetch, ht]
        | exn => simp [get_3pe_protocol, hu, get_3pe_protocol_fetch, ht]
    · intro txn_id resp
      cases hu : service.url with
      | none => simp [ping, hu]
      | some u =>
        obtain ⟨tok, ht⟩ := htok u hu
        cases resp <;> simp [ping, hu, ht]
    · intro ev eph td otk fb dlc dll txn resp
      cases hu : service.url with
      | none => simp [push_bulk, hu]
      | some u =>
        obtain ⟨tok, ht⟩ := htok u hu
        cases resp <;> simp [push_bulk, hu, ht]
    · intro query resp
      cases hu : service.url with
      | none => simp [claim_client_keys, hu]
      | some u =>
        obtain ⟨tok, ht⟩ := htok u hu
        cases resp <;> simp [claim_client_keys, hu, ht]

/-- C9 witness: the misconfigured service aborts with the hs_token assertion
on a concrete call, and the well-configured service never does. -/
theorem hs_token_assertion_discipline_witness :
    query_user svcNoToken "@u:hs" (HttpOutcome.ok (Json.obj [])) =
      PyResult.assertFail AssertKind.hsTokenNotNone ∧
    push_bulk svcNoToken [] [] [] [] [] [] [] none (HttpOutcome.ok (Json.obj [])) =
      PyResult.assertFail AssertKind.hsTokenNotNone ∧
    query_user svcFull "@u:hs" (HttpOutcome.ok (Json.obj [])) ≠
      PyResult.assertFail AssertKind.hsTokenNotNone := by
  obtain ⟨habort, _⟩ := hs_token_assertion_discipline svcNoToken
  obtain ⟨hq, _, _, _, _, hp, _⟩ := habort "https://as.example" rfl rfl
  obtain ⟨_, hclean⟩ := hs_token_assertion_discipline svcFull
  exact ⟨hq "@u:hs" _, hp [] [] [] [] [] [] [] none _,
         (hclean (fun _ => rfl)).1 "@u:hs" _⟩

/-- C8: on the protocol-metadata cache keyed by (service.id, protocol) with
the one-hour TTL, a first wrap on a missing key invokes its producer (one
network call, here the _get fetch of get_3pe_protocol); a second wrap of the
same key before the TTL window closes is answered from the cache with the
first call's result and does not invoke its own producer — so two interleaved
callers issue at most one underlying call and observe the same result — while
a wrap after the TTL has elapsed invokes a fresh producer and returns its
fresh result. -/
theorem protocol_meta_cache_single_flight
    (c0 : ResponseCacheModel (PyResult (Option Json)))
    (service : ApplicationService) (protocol : String) (t0 t1 t2 : Nat)
    (resp1 resp2 : HttpOutcome Json)
    (httl : c0.ttl_ms = HOUR_IN_MS)
    (hmiss : cacheLookup c0 (protocol_meta_cache_key service protocol) t0 = none)
    (h1 : t1 < t0 + HOUR_IN_MS) (h2 : t0 + HOUR_IN_MS ≤ t2) :
    (cacheWrap c0 (protocol_meta_cache_key service protocol) t0
      (get_3pe_protocol_fetch service resp1)).invoked = true ∧
    cacheWrap
        (cacheWrap c0 (protocol_meta_cache_key service protocol) t0
          (get_3pe_protocol_fetch service resp1)).cache
        (protocol_meta_cache_key service protocol) t1
        (get_3pe_protocol_fetch service resp2) =
      ⟨get_3pe_protocol_fetch service resp1,
       (cacheWrap c0 (protocol_meta_cache_key service protocol) t0
         (get_3pe_protocol_fetch service resp1)).cache,
       false⟩ ∧
    (cacheWrap
        (cacheWrap c0 (protocol_meta_cache_key service protocol) t0
          (get_3pe_protocol_fetch service resp1)).cache
        (protocol_meta_cache_key service protocol) t2
        (get_3pe_protocol_fetch service resp2)).invoked = true ∧
    (cacheWrap
        (cacheWrap c0 (protocol_meta_cache_key service protocol) t0
          (get_3pe_protocol_fetch service resp1)).cache
        (protocol_meta_cache_key service protocol) t2
        (get_3pe_protocol_fetch service resp2)).value =
      get_3pe_protocol_fetch service resp2 := by
  have hw1 : cacheWrap c0 (protocol_meta_cache_key service protocol) t0
      (get_3pe_protocol_fetch service resp1) =
      ⟨get_3pe_protocol_fetch service resp1,
       ⟨c0.ttl_ms,
        aset c0.entries (protocol_meta_cache_key service protocol)
          (t0 + c0.ttl_ms, get_3pe_protocol_fetch service resp1)⟩,
       true⟩ := by
    unfold cacheWrap
    rw [hmiss]
  have hl1 : cacheLookup
      ⟨c0.ttl_ms,
       aset c0.entries (protocol_meta_cache_key service protocol)
         (t0 + c0.ttl_ms, get_3pe_protocol_fetch service resp1)⟩
      (protocol_meta_cache_key service protocol) t1 =
      some (get_3pe_protocol_fetch service resp1) := by
    unfold cacheLookup
    rw [show (⟨c0.ttl_ms,
        aset c0.entries (protocol_meta_cache_key service protocol)
          (t0 + c0.ttl_ms, get_3pe_protocol_fetch service resp1)⟩ :
        ResponseCacheModel (PyResult (Option Json))).entries =
        aset c0.entries (protocol_meta_cache_key service protocol)
          (t0 + c0.ttl_ms, get_3pe_protocol_fetch service resp1) from rfl,
      alookup_aset_self, httl]
    simp [h1]
  have hl2 : cacheLookup
      ⟨c0.ttl_ms,
       aset c0.entries (protocol_meta_cache_key service protocol)
         (t0 + c0.ttl_ms, get_3pe_protocol_fetch service resp1)⟩
      (protocol_meta_cache_key service protocol) t2 = none := by
    unfold cacheLookup
    rw [show (⟨c0.ttl_ms,
        aset c0.entries (protocol_meta_cache_key service protocol)
          (t0 + c0.ttl_ms, get_3pe_protocol_fetch service resp1)⟩ :
        ResponseCacheModel (PyResult (Option Json))).entries =
        aset c0.entries (protocol_meta_cache_key service protocol)
          (t0 + c0.ttl_ms, get_3pe_protocol_fetch service resp1) from rfl,
      alookup_aset_self, httl]
    simp [Nat.not_lt.mpr h2]
  refine ⟨?_, ?_, ?_, ?_⟩
  · rw [hw1]
  · rw [hw1]
    unfold cacheWrap
    rw [hl1]
  · rw [hw1]
    unfold cacheWrap
    rw [hl2]
  · rw [hw1]
    unfold cacheWrap
    rw [hl2]

/-- C8 witness: starting from the empty one-hour cache, a first wrap at time
0 invokes its producer, a second wrap at time 10 is served from the cache
with the first result and no new invocation, and a wrap at exactly one hour
invokes a fresh producer. -/
theorem protocol_meta_cache_single_flight_witness :
    (cacheWrap exampleProtocolMetaCache (protocol_meta_cache_key svcFull "irc")
      0 (get_3pe_protocol_fetch svcFull HttpOutcome.exn)).invoked = true ∧
    cacheWrap
        (cacheWrap exampleProtocolMetaCache
          (protocol_meta_cache_key svcFull "irc") 0
          (get_3pe_protocol_fetch svcFull HttpOutcome.exn)).cache
        (protocol_meta_cache_key svcFull "irc") 10
        (get_3pe_protocol_fetch svcFull (HttpOutcome.codeError 500)) =
      ⟨get_3pe_protocol_fetch svcFull HttpOutcome.exn,
       (cacheWrap exampleProtocolMetaCache
         (protocol_meta_cache_key svcFull "irc") 0
         (get_3pe_protocol_fetch svcFull HttpOutcome.exn)).cache,
       false⟩ ∧
    (cacheWrap
        (cacheWrap exampleProtocolMetaCache
          (protocol_meta_cache_key svcFull "irc") 0
          (get_3pe_protocol_fetch svcFull HttpOutcome.exn)).cache
        (protocol_meta_cache_key svcFull "irc") HOUR_IN_MS
        (get_3pe_protocol_fetch svcFull (HttpOutcome.codeError 500))).invoked =
      true := by
  obtain ⟨w1, w2, w3, _⟩ := protocol_meta_cache_single_flight
    exampleProtocolMetaCache svcFull "irc" 0 10 HOUR_IN_MS
    HttpOutcome.exn (HttpOutcome.codeError 500) rfl rfl
    (by decide) (by decide)
  exact ⟨w1, w2, w3⟩
